import Mathlib

/-!
Shallow embedding of the Artify backend (Server.js and its Mongoose models).
Each HTTP handler is modelled as a pure function from its request payload and
the relevant document-store collection (a list of documents) to the updated
collection together with an explicit response value.  External services
(image host, payment gateway, mail relay) are parameters of the handlers.
-/

namespace Artify

/-- A line item stored inside a cart: a denormalized snapshot of a listing
taken at add-time (models the items sub-schema of models/Cart.js, with the
ObjectId rendered as its string form). -/
structure CartItem where
  artId : String
  title : String
  price : Int
  image : String
deriving Repr, DecidableEq

/-- A cart document: one per user, holding an ordered sequence of line items
(models/Cart.js). -/
structure Cart where
  userId : String
  items : List CartItem
deriving Repr, DecidableEq

/-- Replace the first element satisfying `p` by its image under `f`; models
`findOne` followed by mutating and `save()`-ing the found document. -/
def updateFirst (p : α → Bool) (f : α → α) : List α → List α
  | [] => []
  | x :: xs => if p x then f x :: xs else x :: updateFirst p f xs

/-- Remove the first element satisfying `p`; models `deleteOne` /
`findOneAndDelete` on a collection. -/
def removeFirst (p : α → Bool) : List α → List α
  | [] => []
  | x :: xs => if p x then xs else x :: removeFirst p xs

/-- Body of a `POST /cart` request; each field is absent (`none`) or present. -/
structure CartPostBody where
  userId : Option String
  artId : Option String
  title : Option String
  price : Option Int
  image : Option String
deriving Repr, DecidableEq

/-- Response of the `POST /cart` handler. -/
inductive CartPostResult
  | badRequest
  | okSaved (cart : Cart)
  | created (cart : Cart)
deriving Repr, DecidableEq

/-- HTTP status carried by each `POST /cart` response. -/
def CartPostResult.status : CartPostResult → Nat
  | badRequest => 400
  | okSaved _ => 200
  | created _ => 201

/-- The `POST /cart` handler (Server.js lines 317-344): validates the five
fields (JS truthiness: absent, empty string, or zero price fail the check),
then either appends the line item to the user's existing cart and saves it,
or creates a fresh single-item cart. -/
def postCart (body : CartPostBody) (carts : List Cart) : List Cart × CartPostResult :=
  match body.userId, body.artId, body.title, body.price, body.image with
  | some u, some a, some t, some p, some i =>
    if u = "" ∨ a = "" ∨ t = "" ∨ p = 0 ∨ i = "" then
      (carts, .badRequest)
    else
      let item : CartItem := { artId := a, title := t, price := p, image := i }
      match carts.find? (fun c => c.userId == u) with
      | some existing =>
          (updateFirst (fun c => c.userId == u)
             (fun c => { c with items := c.items ++ [item] }) carts,
           .okSaved { existing with items := existing.items ++ [item] })
      | none =>
          let newCart : Cart := { userId := u, items := [item] }
          (carts ++ [newCart], .created newCart)
  | _, _, _, _, _ => (carts, .badRequest)

/-- C1: For every POST /cart request: a request missing any of userId, artId,
title, price, image gets status 400 and leaves the cart store untouched; a
valid request for a user with an existing cart appends the line item to that
cart (preserving all existing items, no deduplication) and returns the saved
cart with status 200; a valid request for a user with no cart creates a cart
with exactly that one item and returns it with status 201. -/
theorem postCart_contract (body : CartPostBody) (carts : List Cart) :
    ((body.userId = none ∨ body.artId = none ∨ body.title = none ∨
      body.price = none ∨ body.image = none) →
      postCart body carts = (carts, CartPostResult.badRequest) ∧
      (postCart body carts).2.status = 400) ∧
    (∀ u a t p i,
      body = { userId := some u, artId := some a, title := some t,
               price := some p, image := some i } →
      u ≠ "" → a ≠ "" → t ≠ "" → p ≠ 0 → i ≠ "" →
      (∀ ex, carts.find? (fun c => c.userId == u) = some ex →
        postCart body carts =
          (updateFirst (fun c => c.userId == u)
             (fun c => { c with items :=
                c.items ++ [{ artId := a, title := t, price := p, image := i }] }) carts,
           CartPostResult.okSaved
             { ex with items :=
                ex.items ++ [{ artId := a, title := t, price := p, image := i }] }) ∧
        (postCart body carts).2.status = 200) ∧
      (carts.find? (fun c => c.userId == u) = none →
        postCart body carts =
          (carts ++ [{ userId := u,
                       items := [{ artId := a, title := t, price := p, image := i }] }],
           CartPostResult.created
             { userId := u,
               items := [{ artId := a, title := t, price := p, image := i }] }) ∧
        (postCart body carts).2.status = 201)) := by
  constructor
  · intro h
    obtain ⟨bu, ba, bt, bp, bi⟩ := body
    cases bu <;> cases ba <;> cases bt <;> cases bp <;> cases bi <;>
      simp_all [postCart, CartPostResult.status]
  · intro u a t p i hbody hu ha ht hp hi
    subst hbody
    have hcond : ¬(u = "" ∨ a = "" ∨ t = "" ∨ p = 0 ∨ i = "") := by
      simp [hu, ha, ht, hp, hi]
    constructor
    · intro ex hex
      simp [postCart, hcond, hex, CartPostResult.status]
    · intro hnone
      simp [postCart, hcond, hnone, CartPostResult.status]

/-- Concrete instantiation of `postCart_contract`: adding the example item of
the spec to an empty store creates the singleton cart, and adding it again
appends a duplicate line item. -/
theorem postCart_contract_witness :
    postCart
      { userId := some "u1", artId := some "a1", title := some "Sunset",
        price := some 100, image := some "http://x/1.jpg" } [] =
      ([{ userId := "u1",
          items := [{ artId := "a1", title := "Sunset", price := 100,
                      image := "http://x/1.jpg" }] }],
       CartPostResult.created
         { userId := "u1",
           items := [{ artId := "a1", title := "Sunset", price := 100,
                       image := "http://x/1.jpg" }] }) ∧
    postCart
      { userId := some "u1", artId := some "a1", title := some "Sunset",
        price := some 100, image := some "http://x/1.jpg" }
      [{ userId := "u1",
         items := [{ artId := "a1", title := "Sunset", price := 100,
                     image := "http://x/1.jpg" }] }] =
      ([{ userId := "u1",
          items := [{ artId := "a1", title := "Sunset", price := 100,
                      image := "http://x/1.jpg" },
                    { artId := "a1", title := "Sunset", price := 100,
                      image := "http://x/1.jpg" }] }],
       CartPostResult.okSaved
         { userId := "u1",
           items := [{ artId := "a1", title := "Sunset", price := 100,
                       image := "http://x/1.jpg" },
                     { artId := "a1", title := "Sunset", price := 100,
                       image := "http://x/1.jpg" }] }) := by
  constructor
  · have h := ((postCart_contract _ []).2 "u1" "a1" "Sunset" 100 "http://x/1.jpg" rfl
      (by decide) (by decide) (by decide) (by decide) (by decide)).2 (by rfl)
    calc _ = _ := h.1
    _ = _ := by rfl
  · have h := ((postCart_contract _
      [{ userId := "u1",
         items := [{ artId := "a1", title := "Sunset", price := 100,
                     image := "http://x/1.jpg" }] }]).2
      "u1" "a1" "Sunset" 100 "http://x/1.jpg" rfl
      (by decide) (by decide) (by decide) (by decide) (by decide)).1
      { userId := "u1",
        items := [{ artId := "a1", title := "Sunset", price := 100,
                    image := "http://x/1.jpg" }] } (by rfl)
    calc _ = _ := h.1
    _ = _ := by rfl

/-- Response of the `GET /api/cart/:userId` handler. -/
inductive CartGetResult
  | notFound
  | ok (items : List CartItem)
deriving Repr, DecidableEq

/-- HTTP status carried by each `GET /api/cart/:userId` response. -/
def CartGetResult.status : CartGetResult → Nat
  | notFound => 404
  | ok _ => 200

/-- The `GET /api/cart/:userId` handler (Server.js lines 347-362): resolves
the cart by userId; 404 if absent, else returns the item sequence. -/
def getCartItems (userId : String) (carts : List Cart) : CartGetResult :=
  match carts.find? (fun c => c.userId == userId) with
  | none => .notFound
  | some userCart => .ok userCart.items

/-- Response of the `DELETE /api/cart/:userId/:artId` handler. -/
inductive CartDeleteResult
  | cartNotFound
  | itemNotFound
  | cartDeleted
  | okCart (cart : Cart)
deriving Repr, DecidableEq

/-- HTTP status carried by each `DELETE /api/cart/:userId/:artId` response. -/
def CartDeleteResult.status : CartDeleteResult → Nat
  | cartNotFound => 404
  | itemNotFound => 404
  | cartDeleted => 200
  | okCart _ => 200

/-- The `DELETE /api/cart/:userId/:artId` handler (Server.js lines 365-392):
resolves the cart, filters out the items whose artId (string form) equals the
path artId, 404 if the cart is absent or nothing was removed, deletes the
cart document when the filtered sequence is empty, else saves and returns the
filtered cart. -/
def deleteCartItem (userId artId : String) (carts : List Cart) :
    List Cart × CartDeleteResult :=
  match carts.find? (fun c => c.userId == userId) with
  | none => (carts, .cartNotFound)
  | some cart =>
    let filtered := cart.items.filter (fun it => it.artId != artId)
    if cart.items.length = filtered.length then
      (carts, .itemNotFound)
    else if filtered.length = 0 then
      (removeFirst (fun c => c.userId == userId) carts, .cartDeleted)
    else
      (updateFirst (fun c => c.userId == userId) (fun c => { c with items := filtered }) carts,
       .okCart { cart with items := filtered })

/-- Intended store invariant (spec section 3): at most one cart document per
user.  Every reachable store of the sequential API satisfies it. -/
def uniqueCartUsers (carts : List Cart) : Prop :=
  carts.Pairwise (fun c d => c.userId ≠ d.userId)

/-- A filter keeps the full length exactly when every element passes it. -/
theorem filter_length_eq_iff (p : α → Bool) (l : List α) :
    (l.filter p).length = l.length ↔ ∀ a ∈ l, p a = true := by
  induction l with
  | nil => simp
  | cons x xs ih =>
    by_cases hx : p x
    · simp [hx, ih]
    · have hle := List.length_filter_le p xs
      simp only [List.filter_cons, hx, if_neg, Bool.false_eq_true, ite_false,
        List.length_cons, List.mem_cons]
      constructor
      · intro h; omega
      · intro h
        have := h x (Or.inl rfl)
        simp [hx] at this

/-- After removing the first element satisfying `p` from a list in which no
two elements both satisfy `p`, no element satisfying `p` remains. -/
theorem removeFirst_find?_eq_none (p : α → Bool) (l : List α)
    (h : l.Pairwise (fun a b => ¬(p a = true ∧ p b = true))) :
    (removeFirst p l).find? p = none := by
  induction l with
  | nil => rfl
  | cons x xs ih =>
    rw [List.pairwise_cons] at h
    by_cases hx : p x
    · rw [removeFirst, if_pos hx]
      apply List.find?_eq_none.mpr
      intro y hy
      have hnot := h.1 y hy
      by_contra hpy
      exact hnot ⟨hx, by simpa using hpy⟩
    · rw [removeFirst, if_neg hx]
      rw [List.find?_cons_of_neg _ (by simpa using hx)]
      exact ih h.2

/-- Updating the first element satisfying `p` keeps it the first element
satisfying `p`, provided the update preserves `p`. -/
theorem updateFirst_find?_eq_some (p : α → Bool) (f : α → α) (l : List α) (c : α)
    (h : l.find? p = some c) (hf : p (f c) = true) :
    (updateFirst p f l).find? p = some (f c) := by
  induction l with
  | nil => simp [List.find?] at h
  | cons x xs ih =>
    by_cases hx : p x
    · have hxc : x = c := by
        rw [List.find?_cons_of_pos _ hx] at h
        exact Option.some.inj h
      subst hxc
      rw [updateFirst, if_pos hx]
      exact List.find?_cons_of_pos _ hf
    · rw [List.find?_cons_of_neg _ (by simpa using hx)] at h
      rw [updateFirst, if_neg hx]
      rw [List.find?_cons_of_neg _ (by simpa using hx)]
      exact ih h

/-- C2: For every DELETE /api/cart/:userId/:artId request on a store with at
most one cart per user: if no cart exists for userId the result is 404 and
the store is unchanged; if no item of the cart has the given artId the result
is 404 and the store is unchanged; otherwise all items whose artId equals the
given artId are removed; if the filtered sequence is empty the cart document
is deleted (status 200) and a subsequent list-items call for that user
returns not-found; otherwise the filtered sequence is persisted (a subsequent
list-items call returns it) and the filtered cart is returned with 200. -/
theorem deleteCartItem_contract (userId artId : String) (carts : List Cart)
    (huniq : uniqueCartUsers carts) :
    (carts.find? (fun c => c.userId == userId) = none →
      deleteCartItem userId artId carts = (carts, CartDeleteResult.cartNotFound) ∧
      (deleteCartItem userId artId carts).2.status = 404) ∧
    (∀ cart, carts.find? (fun c => c.userId == userId) = some cart →
      ((∀ it ∈ cart.items, it.artId ≠ artId) →
        deleteCartItem userId artId carts = (carts, CartDeleteResult.itemNotFound) ∧
        (deleteCartItem userId artId carts).2.status = 404) ∧
      ((∃ it ∈ cart.items, it.artId = artId) →
        (cart.items.filter (fun it => it.artId != artId) = [] →
          (deleteCartItem userId artId carts).2 = CartDeleteResult.cartDeleted ∧
          (deleteCartItem userId artId carts).2.status = 200 ∧
          getCartItems userId (deleteCartItem userId artId carts).1 =
            CartGetResult.notFound) ∧
        (cart.items.filter (fun it => it.artId != artId) ≠ [] →
          deleteCartItem userId artId carts =
            (updateFirst (fun c => c.userId == userId)
               (fun c => { c with items := cart.items.filter (fun it => it.artId != artId) })
               carts,
             CartDeleteResult.okCart
               { cart with items := cart.items.filter (fun it => it.artId != artId) }) ∧
          getCartItems userId (deleteCartItem userId artId carts).1 =
            CartGetResult.ok (cart.items.filter (fun it => it.artId != artId)) ∧
          (deleteCartItem userId artId carts).2.status = 200))) := by
  have hpw : carts.Pairwise
      (fun a b => ¬((fun c => c.userId == userId) a = true ∧
                     (fun c => c.userId == userId) b = true)) := by
    refine huniq.imp ?_
    intro a b hab hcontra
    exact hab (by
      have h1 : a.userId = userId := by simpa using hcontra.1
      have h2 : b.userId = userId := by simpa using hcontra.2
      rw [h1, h2])
  constructor
  · intro hnone
    simp [deleteCartItem, hnone, CartDeleteResult.status]
  · intro cart hfind
    have hcartuser : cart.userId = userId := by
      have := List.find?_some hfind
      simpa using this
    constructor
    · intro hall
      have hfilter : cart.items.filter (fun it => it.artId != artId) = cart.items := by
        apply List.filter_eq_self.mpr
        intro it hit
        simpa using hall it hit
      simp [deleteCartItem, hfind, hfilter, CartDeleteResult.status]
    · rintro ⟨it0, hit0, hart0⟩
      have hne : cart.items.length ≠
          (cart.items.filter (fun it => it.artId != artId)).length := by
        intro heq
        have := (filter_length_eq_iff _ _).mp heq.symm it0 hit0
        simp [hart0] at this
      constructor
      · intro hempty
        have hdel : deleteCartItem userId artId carts =
            (removeFirst (fun c => c.userId == userId) carts,
             CartDeleteResult.cartDeleted) := by
          simp [deleteCartItem, hfind, hne, hempty, List.ne_nil_of_mem hit0]
        refine ⟨by rw [hdel], by rw [hdel]; rfl, ?_⟩
        rw [hdel]
        simp only [getCartItems]
        rw [removeFirst_find?_eq_none _ _ hpw]
      · intro hnonempty
        have hlen0 : ¬((cart.items.filter (fun it => it.artId != artId)).length = 0) := by
          simpa [List.length_eq_zero] using hnonempty
        have hdel : deleteCartItem userId artId carts =
            (updateFirst (fun c => c.userId == userId)
               (fun c =>
                 { c with items := cart.items.filter (fun it => it.artId != artId) })
               carts,
             CartDeleteResult.okCart
               { cart with items := cart.items.filter (fun it => it.artId != artId) }) := by
          simp [deleteCartItem, hfind, hne, hlen0]
        refine ⟨hdel, ?_, by rw [hdel]; rfl⟩
        rw [hdel]
        simp only [getCartItems]
        rw [updateFirst_find?_eq_some (fun c => c.userId == userId) _ carts cart hfind
          (by simpa using hcartuser)]

/-- Concrete instantiation of `deleteCartItem_contract`: removing the only
item of a single-item cart deletes the cart document and a subsequent
list-items call returns not-found. -/
theorem deleteCartItem_contract_witness :
    (deleteCartItem "u1" "a1"
        [{ userId := "u1",
           items := [{ artId := "a1", title := "Sunset", price := 100,
                       image := "http://x/1.jpg" }] }]).2 =
      CartDeleteResult.cartDeleted ∧
    getCartItems "u1"
      (deleteCartItem "u1" "a1"
        [{ userId := "u1",
           items := [{ artId := "a1", title := "Sunset", price := 100,
                       image := "http://x/1.jpg" }] }]).1 =
      CartGetResult.notFound := by
  have h := ((deleteCartItem_contract "u1" "a1"
      [{ userId := "u1",
         items := [{ artId := "a1", title := "Sunset", price := 100,
                     image := "http://x/1.jpg" }] }]
      (by simp [uniqueCartUsers])).2
    { userId := "u1",
      items := [{ artId := "a1", title := "Sunset", price := 100,
                  image := "http://x/1.jpg" }] }
    (by rfl)).2
    ⟨{ artId := "a1", title := "Sunset", price := 100, image := "http://x/1.jpg" },
      by simp, rfl⟩
  exact ⟨(h.1 (by decide)).1, (h.1 (by decide)).2.2⟩

/-- The store primitive `Cart.findOneAndDelete(q)`: removes and returns the
first cart matching the query, or leaves the collection unchanged when
nothing matches.  The query semantics (how `{ artId, userId }` is matched
against cart documents) is a parameter. -/
def findOneAndDeleteCart (q : Cart → Bool) (carts : List Cart) :
    List Cart × Option Cart :=
  match carts.find? q with
  | none => (carts, none)
  | some c => (removeFirst q carts, some c)

/-- The `DELETE /deletefromcart` handler (Server.js lines 270-291): iterates
over the `{userId, artId}` pairs, attempts a `findOneAndDelete` per pair
(missing items are only logged), and finally answers status 200.  `query`
abstracts the store's interpretation of the `{ artId, userId }` filter. -/
def deleteFromCart (query : String → String → Cart → Bool) :
    List (String × String) → List Cart → List Cart × Nat
  | [], carts => (carts, 200)
  | pair :: rest, carts =>
      deleteFromCart query rest (findOneAndDeleteCart (query pair.1 pair.2) carts).1

/-- C3: The batch cart-deletion endpoint attempts one delete per
`{userId, artId}` pair independently (the final store is the left fold of
the per-pair `findOneAndDelete` steps), a pair that matches nothing leaves
the store untouched and is not surfaced as a failure, and the response is
status 200 regardless of per-item outcome. -/
theorem deleteFromCart_contract (query : String → String → Cart → Bool)
    (cartItems : List (String × String)) (carts : List Cart) :
    (deleteFromCart query cartItems carts).2 = 200 ∧
    (deleteFromCart query cartItems carts).1 =
      cartItems.foldl
        (fun cs pair => (findOneAndDeleteCart (query pair.1 pair.2) cs).1) carts ∧
    (∀ (pair : String × String) (cs : List Cart),
      cs.find? (query pair.1 pair.2) = none →
      findOneAndDeleteCart (query pair.1 pair.2) cs = (cs, none)) := by
  refine ⟨?_, ?_, ?_⟩
  · induction cartItems generalizing carts with
    | nil => rfl
    | cons pair rest ih => exact ih _
  · induction cartItems generalizing carts with
    | nil => rfl
    | cons pair rest ih => simpa [deleteFromCart] using ih _
  · intro pair cs hnone
    simp [findOneAndDeleteCart, hnone]

/-- Concrete instantiation of `deleteFromCart_contract`: a batch whose two
pairs match nothing in an empty store still answers 200 and changes
nothing. -/
theorem deleteFromCart_contract_witness :
    (deleteFromCart (fun userId artId c => c.userId == userId && decide True)
        [("u1", "a1"), ("u2", "a2")] []).2 = 200 ∧
    findOneAndDeleteCart
        ((fun userId artId c => c.userId == userId && decide True) "u1" "a1") [] =
      ([], none) := by
  have h := deleteFromCart_contract
    (fun userId artId c => c.userId == userId && decide True)
    [("u1", "a1"), ("u2", "a2")] []
  exact ⟨h.1, h.2.2 ("u1", "a1") [] (by rfl)⟩

/-- A user document (models/User.js). -/
structure User where
  UserId : String
  fullName : String
  Email : String
  imageurl : String
  username : String
deriving Repr, DecidableEq

/-- A listing document (models/sellArt.js), with the Mongo `_id` made
explicit; `price` is kept in its transported string form. -/
structure SellArt where
  id : String
  category : String
  title : String
  description : String
  price : String
  images : List String
  userId : String
deriving Repr, DecidableEq

/-- Response of the `GET /api/art/:id` handler; `ok` carries the listing
fields merged with the nested owning user object. -/
inductive ArtGetResult
  | artNotFound
  | userNotFound
  | ok (art : SellArt) (user : User)
deriving Repr, DecidableEq

/-- HTTP status carried by each `GET /api/art/:id` response. -/
def ArtGetResult.status : ArtGetResult → Nat
  | artNotFound => 404
  | userNotFound => 404
  | ok _ _ => 200

/-- The `GET /api/art/:id` handler (Server.js lines 244-267): resolves the
listing by id (404 if absent), then the owning user by `UserId = art.userId`
(404 if absent), else returns the merged object. -/
def getArtById (id : String) (arts : List SellArt) (users : List User) :
    ArtGetResult :=
  match arts.find? (fun a => a.id == id) with
  | none => .artNotFound
  | some art =>
    match users.find? (fun u => u.UserId == art.userId) with
    | none => .userNotFound
    | some user => .ok art user

/-- The `GET /api/art` handler (Server.js lines 294-302): unconditional full
collection scan, returned with status 200. -/
def getAllArts (arts : List SellArt) : List SellArt :=
  arts

/-- C4: For every GET /api/art/:id request: an unresolved listing id yields
404; a listing whose owning user record is missing also yields 404, even
though that very listing is still part of the GET /api/art full-collection
response; when both exist, the response is the listing merged with the
nested user with status 200. -/
theorem getArtById_contract (id : String) (arts : List SellArt) (users : List User) :
    (arts.find? (fun a => a.id == id) = none →
      getArtById id arts users = ArtGetResult.artNotFound ∧
      (getArtById id arts users).status = 404) ∧
    (∀ art, arts.find? (fun a => a.id == id) = some art →
      (users.find? (fun u => u.UserId == art.userId) = none →
        getArtById id arts users = ArtGetResult.userNotFound ∧
        (getArtById id arts users).status = 404 ∧
        art ∈ getAllArts arts) ∧
      (∀ user, users.find? (fun u => u.UserId == art.userId) = some user →
        getArtById id arts users = ArtGetResult.ok art user ∧
        (getArtById id arts users).status = 200)) := by
  constructor
  · intro hnone
    simp [getArtById, hnone, ArtGetResult.status]
  · intro art hart
    constructor
    · intro hnouser
      refine ⟨?_, ?_, ?_⟩
      · simp [getArtById, hart, hnouser]
      · simp [getArtById, hart, hnouser, ArtGetResult.status]
      · exact List.mem_of_find?_eq_some hart
    · intro user huser
      constructor
      · simp [getArtById, hart, huser]
      · simp [getArtById, hart, huser, ArtGetResult.status]

/-- Concrete instantiation of `getArtById_contract`: a listing whose owner
was never registered is 404 on the single-item read, yet present in the
read-all response. -/
theorem getArtById_contract_witness :
    getArtById "id1"
        [{ id := "id1", category := "painting", title := "Sunset",
           description := "d", price := "100", images := ["http://x/1.jpg"],
           userId := "ghost" }] [] =
      ArtGetResult.userNotFound ∧
    { id := "id1", category := "painting", title := "Sunset",
      description := "d", price := "100", images := ["http://x/1.jpg"],
      userId := "ghost" } ∈
      getAllArts
        [{ id := "id1", category := "painting", title := "Sunset",
           description := "d", price := "100", images := ["http://x/1.jpg"],
           userId := "ghost" }] := by
  have h := ((getArtById_contract "id1"
      [{ id := "id1", category := "painting", title := "Sunset",
         description := "d", price := "100", images := ["http://x/1.jpg"],
         userId := "ghost" }] []).2
    { id := "id1", category := "painting", title := "Sunset",
      description := "d", price := "100", images := ["http://x/1.jpg"],
      userId := "ghost" } (by rfl)).1 (by rfl)
  exact ⟨h.1, h.2.2⟩

/-- Body of a `POST /api/user` request. -/
structure UserPostBody where
  UserId : Option String
  fullName : Option String
  Email : Option String
  imageurl : Option String
  username : Option String
deriving Repr, DecidableEq

/-- Response of the `POST /api/user` handler. -/
inductive UserPostResult
  | unprocessable
  | conflict
  | created (user : User)
deriving Repr, DecidableEq

/-- HTTP status carried by each `POST /api/user` response. -/
def UserPostResult.status : UserPostResult → Nat
  | unprocessable => 422
  | conflict => 409
  | created _ => 201

/-- The `POST /api/user` handler (Server.js lines 116-142): validates the
five fields (JS truthiness), rejects with 409 when a user with the same
UserId already exists, else persists and returns the new user with 201. -/
def postUser (body : UserPostBody) (users : List User) : List User × UserPostResult :=
  match body.UserId, body.fullName, body.Email, body.imageurl, body.username with
  | some uid, some fn, some em, some iu, some un =>
    if uid = "" ∨ fn = "" ∨ em = "" ∨ iu = "" ∨ un = "" then
      (users, .unprocessable)
    else
      match users.find? (fun u => u.UserId == uid) with
      | some _ => (users, .conflict)
      | none =>
        let newUser : User :=
          { UserId := uid, fullName := fn, Email := em, imageurl := iu, username := un }
        (users ++ [newUser], .created newUser)
  | _, _, _, _, _ => (users, .unprocessable)

/-- C5: For every POST /api/user request: a request missing any of UserId,
fullName, Email, imageurl, username gets 422 and writes nothing; a valid
request whose UserId already belongs to a stored user gets 409 and the
stored collection is unchanged (the first record is not altered and no
second record is created); a valid request with a fresh UserId persists the
new user and returns it with 201. -/
theorem postUser_contract (body : UserPostBody) (users : List User) :
    ((body.UserId = none ∨ body.fullName = none ∨ body.Email = none ∨
      body.imageurl = none ∨ body.username = none) →
      postUser body users = (users, UserPostResult.unprocessable) ∧
      (postUser body users).2.status = 422) ∧
    (∀ uid fn em iu un,
      body = { UserId := some uid, fullName := some fn, Email := some em,
               imageurl := some iu, username := some un } →
      uid ≠ "" → fn ≠ "" → em ≠ "" → iu ≠ "" → un ≠ "" →
      (∀ u, users.find? (fun v => v.UserId == uid) = some u →
        postUser body users = (users, UserPostResult.conflict) ∧
        (postUser body users).2.status = 409) ∧
      (users.find? (fun v => v.UserId == uid) = none →
        postUser body users =
          (users ++ [{ UserId := uid, fullName := fn, Email := em,
                       imageurl := iu, username := un }],
           UserPostResult.created
             { UserId := uid, fullName := fn, Email := em,
               imageurl := iu, username := un }) ∧
        (postUser body users).2.status = 201)) := by
  constructor
  · intro h
    obtain ⟨b1, b2, b3, b4, b5⟩ := body
    cases b1 <;> cases b2 <;> cases b3 <;> cases b4 <;> cases b5 <;>
      simp_all [postUser, UserPostResult.status]
  · intro uid fn em iu un hbody h1 h2 h3 h4 h5
    subst hbody
    have hcond : ¬(uid = "" ∨ fn = "" ∨ em = "" ∨ iu = "" ∨ un = "") := by
      simp [h1, h2, h3, h4, h5]
    constructor
    · intro u hu
      simp [postUser, hcond, hu, UserPostResult.status]
    · intro hnone
      simp [postUser, hcond, hnone, UserPostResult.status]

/-- Concrete instantiation of `postUser_contract`: registering the same
UserId twice conflicts on the second attempt, leaving the store exactly as
after the first. -/
theorem postUser_contract_witness :
    postUser
      { UserId := some "u1", fullName := some "Ann Artist",
        Email := some "ann@example.com", imageurl := some "http://x/a.png",
        username := some "ann" } [] =
      ([{ UserId := "u1", fullName := "Ann Artist", Email := "ann@example.com",
          imageurl := "http://x/a.png", username := "ann" }],
       UserPostResult.created
         { UserId := "u1", fullName := "Ann Artist", Email := "ann@example.com",
           imageurl := "http://x/a.png", username := "ann" }) ∧
    postUser
      { UserId := some "u1", fullName := some "Bob", Email := some "b@example.com",
        imageurl := some "http://x/b.png", username := some "bob" }
      [{ UserId := "u1", fullName := "Ann Artist", Email := "ann@example.com",
         imageurl := "http://x/a.png", username := "ann" }] =
      ([{ UserId := "u1", fullName := "Ann Artist", Email := "ann@example.com",
          imageurl := "http://x/a.png", username := "ann" }],
       UserPostResult.conflict) := by
  constructor
  · have h := ((postUser_contract _ []).2 "u1" "Ann Artist" "ann@example.com"
      "http://x/a.png" "ann" rfl (by decide) (by decide) (by decide) (by decide)
      (by decide)).2 (by rfl)
    calc _ = _ := h.1
    _ = _ := by rfl
  · exact (((postUser_contract _
      [{ UserId := "u1", fullName := "Ann Artist", Email := "ann@example.com",
         imageurl := "http://x/a.png", username := "ann" }]).2
      "u1" "Bob" "b@example.com" "http://x/b.png" "bob" rfl (by decide) (by decide)
      (by decide) (by decide) (by decide)).1
      { UserId := "u1", fullName := "Ann Artist", Email := "ann@example.com",
        imageurl := "http://x/a.png", username := "ann" } (by rfl)).1

/-- An uploaded binary image blob (opaque content). -/
abbrev Blob := String

/-- An error reported by the image host. -/
abbrev UploadErr := String

/-- The upload adapter (Server.js lines 153-167): every blob is sent to the
image host and the resulting secure URLs are collected in input order; the
rejection of any single upload rejects the whole batch (`Promise.all`). -/
def uploadAll (upload : Blob → Except UploadErr String) :
    List Blob → Except UploadErr (List String)
  | [] => .ok []
  | f :: fs =>
    match upload f with
    | .error e => .error e
    | .ok url =>
      match uploadAll upload fs with
      | .error e => .error e
      | .ok urls => .ok (url :: urls)

/-- A successful batch upload yields exactly one URL per blob, in input
order: the i-th URL is the upload result of the i-th blob. -/
theorem uploadAll_ok (upload : Blob → Except UploadErr String)
    (files : List Blob) (urls : List String)
    (h : uploadAll upload files = .ok urls) :
    urls.length = files.length ∧
    ∀ i (hf : i < files.length) (hu : i < urls.length),
      upload (files.get ⟨i, hf⟩) = .ok (urls.get ⟨i, hu⟩) := by
  induction files generalizing urls with
  | nil =>
    simp [uploadAll] at h
    subst h
    simp
  | cons f fs ih =>
    rw [uploadAll] at h
    cases hf : upload f with
    | error e => rw [hf] at h; exact absurd h (by simp)
    | ok url =>
      rw [hf] at h
      cases hfs : uploadAll upload fs with
      | error e => rw [hfs] at h; exact absurd h (by simp)
      | ok rest =>
        rw [hfs] at h
        have hurls : urls = url :: rest := by
          simpa using h.symm
        subst hurls
        obtain ⟨hlen, hget⟩ := ih rest hfs
        refine ⟨by simpa using hlen, ?_⟩
        intro i hfi hui
        cases i with
        | zero => simpa using hf
        | succ j => simpa using hget j (by simpa using hfi) (by simpa using hui)

/-- If any blob of the batch fails to upload, the whole batch fails. -/
theorem uploadAll_error_of_mem (upload : Blob → Except UploadErr String)
    (files : List Blob) (f : Blob) (e : UploadErr)
    (hmem : f ∈ files) (hf : upload f = .error e) :
    ∃ e2, uploadAll upload files = .error e2 := by
  induction files with
  | nil => simp at hmem
  | cons g gs ih =>
    rcases List.mem_cons.mp hmem with hg | hgs
    · subst hg
      exact ⟨e, by rw [uploadAll, hf]⟩
    · cases hgup : upload g with
      | error e3 => exact ⟨e3, by rw [uploadAll, hgup]⟩
      | ok url =>
        obtain ⟨e2, he2⟩ := ih hgs
        exact ⟨e2, by rw [uploadAll, hgup, he2]⟩

/-- Body (text part) of a `POST /api/sell-art` multipart request. -/
structure SellArtPostBody where
  category : Option String
  title : Option String
  description : Option String
  price : Option String
  userId : Option String
deriving Repr, DecidableEq

/-- Response of the `POST /api/sell-art` handler. -/
inductive SellArtPostResult
  | unprocessable
  | serverError
  | created (art : SellArt)
deriving Repr, DecidableEq

/-- HTTP status carried by each `POST /api/sell-art` response. -/
def SellArtPostResult.status : SellArtPostResult → Nat
  | unprocessable => 422
  | serverError => 500
  | created _ => 201

/-- The `POST /api/sell-art` handler (Server.js lines 144-184): validates the
five text fields and the presence of at least one image blob (422 otherwise),
uploads all blobs (any failure is caught as a 500 server error with nothing
persisted), then persists and returns the new listing with 201.  `freshId` is
the document id the store assigns. -/
def postSellArt (body : SellArtPostBody) (files : List Blob)
    (upload : Blob → Except UploadErr String) (freshId : String)
    (arts : List SellArt) : List SellArt × SellArtPostResult :=
  match body.category, body.title, body.description, body.price, body.userId with
  | some c, some t, some d, some p, some u =>
    if c = "" ∨ t = "" ∨ d = "" ∨ p = "" ∨ files.length = 0 ∨ u = "" then
      (arts, .unprocessable)
    else
      match uploadAll upload files with
      | .error _ => (arts, .serverError)
      | .ok imageUrls =>
        let newArt : SellArt :=
          { id := freshId, category := c, title := t, description := d,
            price := p, images := imageUrls, userId := u }
        (arts ++ [newArt], .created newArt)
  | _, _, _, _, _ => (arts, .unprocessable)

/-- C6: For every POST /api/sell-art request: a request missing any of
category, title, description, price, userId or carrying no image blob gets
422 and persists nothing; a valid request whose uploads all succeed persists
and returns (status 201) a listing whose images sequence has exactly one URL
per blob with the i-th URL the upload result of the i-th blob; a valid
request in which any single upload fails gets 500 and persists nothing. -/
theorem postSellArt_contract (body : SellArtPostBody) (files : List Blob)
    (upload : Blob → Except UploadErr String) (freshId : String)
    (arts : List SellArt) :
    ((body.category = none ∨ body.title = none ∨ body.description = none ∨
      body.price = none ∨ body.userId = none ∨ files = []) →
      postSellArt body files upload freshId arts = (arts, SellArtPostResult.unprocessable) ∧
      (postSellArt body files upload freshId arts).2.status = 422) ∧
    (∀ c t d p u,
      body = { category := some c, title := some t, description := some d,
               price := some p, userId := some u } →
      c ≠ "" → t ≠ "" → d ≠ "" → p ≠ "" → u ≠ "" → files ≠ [] →
      (∀ imageUrls, uploadAll upload files = .ok imageUrls →
        postSellArt body files upload freshId arts =
          (arts ++ [{ id := freshId, category := c, title := t, description := d,
                      price := p, images := imageUrls, userId := u }],
           SellArtPostResult.created
             { id := freshId, category := c, title := t, description := d,
               price := p, images := imageUrls, userId := u }) ∧
        imageUrls.length = files.length ∧
        (∀ i (hf : i < files.length) (hu : i < imageUrls.length),
          upload (files.get ⟨i, hf⟩) = .ok (imageUrls.get ⟨i, hu⟩)) ∧
        (postSellArt body files upload freshId arts).2.status = 201) ∧
      (∀ f e, f ∈ files → upload f = .error e →
        postSellArt body files upload freshId arts = (arts, SellArtPostResult.serverError) ∧
        (postSellArt body files upload freshId arts).2.status = 500)) := by
  constructor
  · intro h
    obtain ⟨b1, b2, b3, b4, b5⟩ := body
    cases b1 <;> cases b2 <;> cases b3 <;> cases b4 <;> cases b5 <;>
      simp_all [postSellArt, SellArtPostResult.status]
  · intro c t d p u hbody hc ht hd hp hu hfiles
    subst hbody
    constructor
    · intro imageUrls hok
      obtain ⟨hlen, hget⟩ := uploadAll_ok upload files imageUrls hok
      refine ⟨?_, hlen, hget, ?_⟩
      · simp [postSellArt, hok, hc, ht, hd, hp, hu, hfiles]
      · simp [postSellArt, hok, hc, ht, hd, hp, hu, hfiles, SellArtPostResult.status]
    · intro f e hmem hf
      obtain ⟨e2, he2⟩ := uploadAll_error_of_mem upload files f e hmem hf
      constructor
      · simp [postSellArt, he2, hc, ht, hd, hp, hu, hfiles]
      · simp [postSellArt, he2, hc, ht, hd, hp, hu, hfiles, SellArtPostResult.status]

/-- Concrete instantiation of `postSellArt_contract`: a two-blob submission
whose uploads both succeed persists a listing with two URLs in input order,
while a batch containing one failing blob persists nothing. -/
theorem postSellArt_contract_witness :
    postSellArt
      { category := some "painting", title := some "Sunset",
        description := some "d", price := some "100", userId := some "u1" }
      ["blobA", "blobB"]
      (fun b => .ok ("http://cdn/" ++ b)) "id1" [] =
      ([{ id := "id1", category := "painting", title := "Sunset",
          description := "d", price := "100",
          images := ["http://cdn/blobA", "http://cdn/blobB"], userId := "u1" }],
       SellArtPostResult.created
         { id := "id1", category := "painting", title := "Sunset",
           description := "d", price := "100",
           images := ["http://cdn/blobA", "http://cdn/blobB"], userId := "u1" }) ∧
    postSellArt
      { category := some "painting", title := some "Sunset",
        description := some "d", price := some "100", userId := some "u1" }
      ["blobA", "blobB"]
      (fun b => if b = "blobB" then .error "host down" else .ok ("http://cdn/" ++ b))
      "id1" [] =
      ([], SellArtPostResult.serverError) := by
  constructor
  · have h := (((postSellArt_contract _ ["blobA", "blobB"]
      (fun b => .ok ("http://cdn/" ++ b)) "id1" []).2
      "painting" "Sunset" "d" "100" "u1" rfl (by decide) (by decide) (by decide)
      (by decide) (by decide) (by decide)).1
      ["http://cdn/blobA", "http://cdn/blobB"] (by rfl)).1
    calc _ = _ := h
    _ = _ := by rfl
  · have h := (((postSellArt_contract _ ["blobA", "blobB"]
      (fun b => if b = "blobB" then .error "host down" else .ok ("http://cdn/" ++ b))
      "id1" []).2
      "painting" "Sunset" "d" "100" "u1" rfl (by decide) (by decide) (by decide)
      (by decide) (by decide) (by decide)).2
      "blobB" "host down" (by simp) (by rfl)).1
    exact h

/-- The options object sent to the payment gateway (Server.js lines 62-66);
`amount` is in minor currency units. -/
structure OrderOptions where
  amount : Int
  currency : String
  receipt : String
deriving Repr, DecidableEq

/-- Response of the `POST /createorder` handler. -/
inductive CreateOrderResult
  | ok (order : String)
  | serverError
deriving Repr, DecidableEq

/-- HTTP status carried by each `POST /createorder` response. -/
def CreateOrderResult.status : CreateOrderResult → Nat
  | ok _ => 200
  | serverError => 500

/-- The `POST /createorder` handler (Server.js lines 58-74): converts the
major-unit `amount` by multiplying with 100, forwards `currency` and
`receipt` unchanged, returns the gateway's order handle verbatim on success
and a generic 500 on gateway failure.  The first component records the
sequence of gateway invocations made while serving the request. -/
def createOrder (gateway : OrderOptions → Except String String)
    (amount : Int) (currency receipt : String) :
    List OrderOptions × CreateOrderResult :=
  let options : OrderOptions :=
    { amount := amount * 100, currency := currency, receipt := receipt }
  match gateway options with
  | .ok response => ([options], .ok response)
  | .error _ => ([options], .serverError)

/-- C7: For every POST /createorder request with amount a, currency c and
receipt r, the gateway is invoked exactly once (no retry, also on failure)
with amount exactly a * 100 and c, r unchanged; on gateway success the order
handle is returned verbatim with 200; on gateway failure the response is a
generic 500. -/
theorem createOrder_contract (gateway : OrderOptions → Except String String)
    (amount : Int) (currency receipt : String) :
    (createOrder gateway amount currency receipt).1 =
      [{ amount := amount * 100, currency := currency, receipt := receipt }] ∧
    (∀ order,
      gateway { amount := amount * 100, currency := currency, receipt := receipt } =
        .ok order →
      (createOrder gateway amount currency receipt).2 = CreateOrderResult.ok order ∧
      (createOrder gateway amount currency receipt).2.status = 200) ∧
    (∀ e,
      gateway { amount := amount * 100, currency := currency, receipt := receipt } =
        .error e →
      (createOrder gateway amount currency receipt).2 = CreateOrderResult.serverError ∧
      (createOrder gateway amount currency receipt).2.status = 500) := by
  refine ⟨?_, ?_, ?_⟩
  · rw [createOrder]
    cases hg : gateway { amount := amount * 100, currency := currency, receipt := receipt } <;>
      simp [hg]
  · intro order hok
    simp [createOrder, hok, CreateOrderResult.status]
  · intro e herr
    simp [createOrder, herr, CreateOrderResult.status]

/-- Concrete instantiation of `createOrder_contract`: an order of 499 rupees
is forwarded as 49900 paise, once, and the handle comes back verbatim. -/
theorem createOrder_contract_witness :
    (createOrder (fun o => .ok ("order_" ++ o.receipt)) 499 "INR" "rcpt42").1 =
      [{ amount := 49900, currency := "INR", receipt := "rcpt42" }] ∧
    (createOrder (fun o => .ok ("order_" ++ o.receipt)) 499 "INR" "rcpt42").2 =
      CreateOrderResult.ok "order_rcpt42" := by
  have h := createOrder_contract (fun o => .ok ("order_" ++ o.receipt)) 499 "INR" "rcpt42"
  exact ⟨h.1, (h.2.1 "order_rcpt42" (by rfl)).1⟩

/-- The body `images` field of a `PUT /api/sell-art/:id` request: a single
URL string or an array of URL strings (the handler applies
`Array.isArray(images) ? images : [images]`). -/
inductive ImagesField
  | one (url : String)
  | many (urls : List String)
deriving Repr, DecidableEq

/-- JS truthiness of the `images` body value: a string is truthy when
non-empty, an array (even empty) is truthy. -/
def imagesFieldTruthy : ImagesField → Bool
  | .one url => url != ""
  | .many _ => true

/-- Normalization `Array.isArray(images) ? images : [images]`. -/
def normalizeImages : ImagesField → List String
  | .one url => [url]
  | .many urls => urls

/-- Body (text part) of a `PUT /api/sell-art/:id` request. -/
structure SellArtPutBody where
  category : Option String
  title : Option String
  description : Option String
  price : Option String
  images : Option ImagesField
deriving Repr, DecidableEq

/-- Response of the `PUT /api/sell-art/:id` handler. -/
inductive SellArtPutResult
  | unprocessable
  | serverError
  | notFound
  | ok (art : SellArt)
deriving Repr, DecidableEq

/-- HTTP status carried by each `PUT /api/sell-art/:id` response. -/
def SellArtPutResult.status : SellArtPutResult → Nat
  | unprocessable => 422
  | serverError => 500
  | notFound => 404
  | ok _ => 200

/-- The `imageUrls` computation of the update handler (Server.js lines
198-221): starts from the empty list, re-derives from freshly uploaded files
when any are present, else falls back to the truthy body-supplied URLs
verbatim without any upload. -/
def putImageUrls (body : SellArtPutBody) (files : List Blob)
    (upload : Blob → Except UploadErr String) : Except UploadErr (List String) :=
  if files.length > 0 then uploadAll upload files
  else
    match body.images with
    | some imgs => if imagesFieldTruthy imgs then .ok (normalizeImages imgs) else .ok []
    | none => .ok []

/-- The `PUT /api/sell-art/:id` handler (Server.js lines 186-241): validates
the four text fields (422 otherwise), computes the new image URL sequence
(a failing upload is caught as 500), resolves the listing (404 if absent),
then replaces category, images, title, description and price wholesale and
returns the fully replaced document. -/
def putSellArt (id : String) (body : SellArtPutBody) (files : List Blob)
    (upload : Blob → Except UploadErr String) (arts : List SellArt) :
    List SellArt × SellArtPutResult :=
  match body.category, body.title, body.description, body.price with
  | some c, some t, some d, some p =>
    if c = "" ∨ t = "" ∨ d = "" ∨ p = "" then
      (arts, .unprocessable)
    else
      match putImageUrls body files upload with
      | .error _ => (arts, .serverError)
      | .ok imageUrls =>
        match arts.find? (fun a => a.id == id) with
        | none => (arts, .notFound)
        | some art =>
          (updateFirst (fun a => a.id == id)
             (fun a => { a with
                category := c, images := imageUrls, title := t,
                description := d, price := p }) arts,
           .ok { art with
             category := c, images := imageUrls, title := t,
             description := d, price := p })
  | _, _, _, _ => (arts, .unprocessable)

/-- C8: For every PUT /api/sell-art/:id request: a request missing any of
category, title, description, price gets 422 with nothing changed; when the
image sequence resolves (in particular whenever no blob is uploaded), an
unresolved listing id gets 404 with the stored listings unchanged, and a
resolved one has its category, images, title, description, price replaced
wholesale with the fully replaced document returned (200); when no image
blobs are uploaded the handler never invokes the upload adapter, and a
truthy body-supplied images value is reused verbatim as the new image
sequence. -/
theorem putSellArt_contract (id : String) (body : SellArtPutBody)
    (files : List Blob) (upload : Blob → Except UploadErr String)
    (arts : List SellArt) :
    ((body.category = none ∨ body.title = none ∨ body.description = none ∨
      body.price = none) →
      putSellArt id body files upload arts = (arts, SellArtPutResult.unprocessable) ∧
      (putSellArt id body files upload arts).2.status = 422) ∧
    (files = [] →
      ∀ upload2, putSellArt id body files upload arts =
        putSellArt id body files upload2 arts) ∧
    (files = [] → ∀ imgs, body.images = some imgs → imagesFieldTruthy imgs = true →
      putImageUrls body files upload = .ok (normalizeImages imgs)) ∧
    (∀ c t d p imgsField,
      body = { category := some c, title := some t, description := some d,
               price := some p, images := imgsField } →
      c ≠ "" → t ≠ "" → d ≠ "" → p ≠ "" →
      ∀ imageUrls, putImageUrls body files upload = .ok imageUrls →
      (arts.find? (fun a => a.id == id) = none →
        putSellArt id body files upload arts = (arts, SellArtPutResult.notFound) ∧
        (putSellArt id body files upload arts).2.status = 404) ∧
      (∀ art, arts.find? (fun a => a.id == id) = some art →
        putSellArt id body files upload arts =
          (updateFirst (fun a => a.id == id)
             (fun a => { a with
                category := c, images := imageUrls, title := t,
                description := d, price := p }) arts,
           SellArtPutResult.ok
             { art with
               category := c, images := imageUrls, title := t,
               description := d, price := p }) ∧
        (putSellArt id body files upload arts).2.status = 200)) := by
  refine ⟨?_, ?_, ?_, ?_⟩
  · intro h
    obtain ⟨b1, b2, b3, b4, b5⟩ := body
    cases b1 <;> cases b2 <;> cases b3 <;> cases b4 <;>
      simp_all [putSellArt, SellArtPutResult.status]
  · intro hfiles upload2
    subst hfiles
    obtain ⟨b1, b2, b3, b4, b5⟩ := body
    cases b1 <;> cases b2 <;> cases b3 <;> cases b4 <;>
      simp [putSellArt, putImageUrls]
  · intro hfiles imgs himgs htruthy
    subst hfiles
    simp [putImageUrls, himgs, htruthy]
  · intro c t d p imgsField hbody hc ht hd hp imageUrls hok
    subst hbody
    constructor
    · intro hnone
      constructor
      · simp [putSellArt, hc, ht, hd, hp, hok, hnone]
      · simp [putSellArt, hc, ht, hd, hp, hok, hnone, SellArtPutResult.status]
    · intro art hart
      constructor
      · simp [putSellArt, hc, ht, hd, hp, hok, hart]
      · simp [putSellArt, hc, ht, hd, hp, hok, hart, SellArtPutResult.status]

/-- Concrete instantiation of `putSellArt_contract`: an update with no blobs
and a body-supplied URL array replaces the stored listing wholesale with
those URLs taken verbatim, whatever the upload adapter would do. -/
theorem putSellArt_contract_witness :
    putImageUrls
      { category := some "digital", title := some "Dawn", description := some "d2",
        price := some "200", images := some (ImagesField.many ["http://x/new.jpg"]) }
      [] (fun _ => .error "never called") = .ok ["http://x/new.jpg"] ∧
    putSellArt "id1"
      { category := some "digital", title := some "Dawn", description := some "d2",
        price := some "200", images := some (ImagesField.many ["http://x/new.jpg"]) }
      [] (fun _ => .error "never called")
      [{ id := "id1", category := "painting", title := "Sunset", description := "d",
         price := "100", images := ["http://x/old.jpg"], userId := "u1" }] =
      ([{ id := "id1", category := "digital", title := "Dawn", description := "d2",
          price := "200", images := ["http://x/new.jpg"], userId := "u1" }],
       SellArtPutResult.ok
         { id := "id1", category := "digital", title := "Dawn", description := "d2",
           price := "200", images := ["http://x/new.jpg"], userId := "u1" }) := by
  have h := putSellArt_contract "id1"
    { category := some "digital", title := some "Dawn", description := some "d2",
      price := some "200", images := some (ImagesField.many ["http://x/new.jpg"]) }
    [] (fun _ => .error "never called")
    [{ id := "id1", category := "painting", title := "Sunset", description := "d",
       price := "100", images := ["http://x/old.jpg"], userId := "u1" }]
  have himg := h.2.2.1 rfl (ImagesField.many ["http://x/new.jpg"]) rfl (by decide)
  have hmain := (h.2.2.2 "digital" "Dawn" "d2" "200"
      (some (ImagesField.many ["http://x/new.jpg"])) rfl
      (by decide) (by decide) (by decide) (by decide)
      ["http://x/new.jpg"] himg).2
    { id := "id1", category := "painting", title := "Sunset", description := "d",
      price := "100", images := ["http://x/old.jpg"], userId := "u1" } (by rfl)
  refine ⟨himg, ?_⟩
  calc _ = _ := hmain.1
  _ = _ := by rfl

/-- C9: For every PUT /api/sell-art/:id request that passes validation,
resolves an existing listing, and supplies neither uploaded image blobs nor
an images field in the body, the stored listing is replaced with an empty
images sequence: the previously stored image URLs are discarded rather than
preserved. -/
theorem putSellArt_discards_images (id : String) (body : SellArtPutBody)
    (upload : Blob → Except UploadErr String) (arts : List SellArt)
    (c t d p : String)
    (hbody : body = { category := some c, title := some t,
                      description := some d, price := some p, images := none })
    (hc : c ≠ "") (ht : t ≠ "") (hd : d ≠ "") (hp : p ≠ "")
    (art : SellArt) (hart : arts.find? (fun a => a.id == id) = some art) :
    putSellArt id body [] upload arts =
      (updateFirst (fun a => a.id == id)
         (fun a => { a with
            category := c, images := ([] : List String), title := t,
            description := d, price := p }) arts,
       SellArtPutResult.ok
         { art with
           category := c, images := ([] : List String), title := t,
           description := d, price := p }) := by
  subst hbody
  simp [putSellArt, putImageUrls, hc, ht, hd, hp, hart]

/-- Concrete instantiation of `putSellArt_discards_images`: updating a
listing that holds one stored URL, with no blobs and no images field,
persists an empty images sequence. -/
theorem putSellArt_discards_images_witness :
    putSellArt "id1"
      { category := some "digital", title := some "Dawn", description := some "d2",
        price := some "200", images := none }
      [] (fun b => .ok ("http://cdn/" ++ b))
      [{ id := "id1", category := "painting", title := "Sunset", description := "d",
         price := "100", images := ["http://x/old.jpg"], userId := "u1" }] =
      ([{ id := "id1", category := "digital", title := "Dawn", description := "d2",
          price := "200", images := [], userId := "u1" }],
       SellArtPutResult.ok
         { id := "id1", category := "digital", title := "Dawn", description := "d2",
           price := "200", images := [], userId := "u1" }) := by
  have h := putSellArt_discards_images "id1"
    { category := some "digital", title := some "Dawn", description := some "d2",
      price := some "200", images := none }
    (fun b => .ok ("http://cdn/" ++ b))
    [{ id := "id1", category := "painting", title := "Sunset", description := "d",
       price := "100", images := ["http://x/old.jpg"], userId := "u1" }]
    "digital" "Dawn" "d2" "200" rfl (by decide) (by decide) (by decide) (by decide)
    { id := "id1", category := "painting", title := "Sunset", description := "d",
      price := "100", images := ["http://x/old.jpg"], userId := "u1" } (by rfl)
  calc _ = _ := h
  _ = _ := by rfl

/-- A composed mail message (the `mailOptions` object of Server.js lines
87-93). -/
structure MailMessage where
  fromAddr : String
  toAddr : String
  subject : String
  text : String
  html : String
deriving Repr, DecidableEq

/-- The `sendEmail` message composition (Server.js lines 77-101): the mail is
addressed to the referee, with a fixed subject and a body template that
interpolates only the referee's address; the referrer argument is unused.
`emailUser` is the configured sender account. -/
def composeMail (emailUser referrerEmail refereeEmail : String) : MailMessage :=
  { fromAddr := emailUser
  , toAddr := refereeEmail
  , subject := "Referral Submission Successful"
  , text := "Thank you for referring " ++ refereeEmail ++ "."
  , html := "<p>Thank you for referring <strong>" ++ refereeEmail ++ "</strong>.</p>" }

/-- Body of a `POST /sendemail` request (the nested `email` object). -/
structure SendEmailBody where
  referrerEmail : String
  refereeEmail : String
deriving Repr, DecidableEq

/-- The `POST /sendemail` handler (Server.js lines 103-113): destructures the
pair and delegates to the mail composition. -/
def sendEmailRoute (emailUser : String) (body : SendEmailBody) : MailMessage :=
  composeMail emailUser body.referrerEmail body.refereeEmail

/-- C10: Two POST /sendemail requests agreeing on refereeEmail but differing
arbitrarily in referrerEmail compose identical mail messages; the message is
addressed to refereeEmail and its text and HTML bodies mention only
refereeEmail, so referrerEmail has no influence on the output. -/
theorem sendEmailRoute_noninterference (emailUser : String)
    (body1 body2 : SendEmailBody)
    (hsame : body1.refereeEmail = body2.refereeEmail) :
    sendEmailRoute emailUser body1 = sendEmailRoute emailUser body2 ∧
    (sendEmailRoute emailUser body1).toAddr = body1.refereeEmail ∧
    (sendEmailRoute emailUser body1).text =
      "Thank you for referring " ++ body1.refereeEmail ++ "." ∧
    (sendEmailRoute emailUser body1).html =
      "<p>Thank you for referring <strong>" ++ body1.refereeEmail ++ "</strong>.</p>" := by
  refine ⟨?_, rfl, rfl, rfl⟩
  simp [sendEmailRoute, composeMail, hsame]

/-- Concrete instantiation of `sendEmailRoute_noninterference`: two requests
with distinct referrers and the same referee yield the same message,
addressed to the referee. -/
theorem sendEmailRoute_noninterference_witness :
    sendEmailRoute "noreply@artify.test"
        { referrerEmail := "alice@example.com", refereeEmail := "carol@example.com" } =
      sendEmailRoute "noreply@artify.test"
        { referrerEmail := "bob@example.com", refereeEmail := "carol@example.com" } ∧
    (sendEmailRoute "noreply@artify.test"
        { referrerEmail := "alice@example.com",
          refereeEmail := "carol@example.com" }).toAddr = "carol@example.com" := by
  have h := sendEmailRoute_noninterference "noreply@artify.test"
    { referrerEmail := "alice@example.com", refereeEmail := "carol@example.com" }
    { referrerEmail := "bob@example.com", refereeEmail := "carol@example.com" }
    rfl
  exact ⟨h.1, h.2.1⟩

end Artify
